import Mathlib

/-!
# Verification of the Trade-Model-Consideration governance layer

Shallow embedding of the risk/governance modules of the repository:

* `control_logic/risk_execution_protocol.py` — `RiskExecutionProtocol`
* `control_logic/trade_coordinator.py` — `PacketSanitizer`, split-log lookup
* `control_logic/signal_isolation_system.py` — `SignalIsolationSystem`
* `helpers/vix_whipsaw_filter.py` — `vix_whipsaw_filter`
* `enforcer/enforce_allocation_rules_fullSet.py` — `enforce_liquidity_reserve_only`

Python floats are modelled as `ℚ`, datetimes as integer seconds (or days for
the VIX filter), dicts as association lists, and exceptions as `Except`.
Each definition mirrors one Python function; theorems below settle the claims.
-/

namespace TradeModel

/-- Bool-valued test that `needle` occurs as a contiguous sublist of `hay`
(models Python's `needle in hay` on strings, after `.data`). -/
def charsContain (needle : List Char) : List Char → Bool
  | [] => needle.isEmpty
  | c :: t => List.isPrefixOf needle (c :: t) || charsContain needle t

/-- Here `strContainsSub hay needle` models Python `needle in hay` for strings. -/
def strContainsSub (hay needle : String) : Bool :=
  charsContain needle.data hay.data

/-- Code-point lexicographic order on char lists. -/
def charListLe : List Char → List Char → Bool
  | [], _ => true
  | _ :: _, [] => false
  | a :: as, b :: bs =>
    if a.toNat < b.toNat then true
    else if b.toNat < a.toNat then false
    else charListLe as bs

/-- Python `a <= b` on strings: lexicographic comparison of code points. -/
def pyStrLe (a b : String) : Bool :=
  charListLe a.data b.data

/-- Python `s.lower()`: lowercase each character (the tags involved are
ASCII, where this agrees with Python's Unicode lowering). -/
def pyLower (s : String) : String :=
  ⟨s.data.map Char.toLower⟩

/-! ## RiskExecutionProtocol (`risk_execution_protocol.py`) -/

/-- Mutable attribute set of a `RiskExecutionProtocol` instance.
Trade timestamps are UTC instants in integer seconds. -/
structure REPState where
  account_equity : ℚ
  tier : String
  max_position_size_pct : ℚ
  max_trades_per_hour : ℕ
  max_daily_drawdown_pct : ℚ
  max_trade_drawdown_pct : ℚ
  daily_loss_total : ℚ
  trade_history : List ℚ
  last_trade_time : Option ℤ
  execution_frozen : Bool
  throttle_mode : Bool
  throttle_trigger_pct : ℚ
  throttle_scaling : ℚ
  locked_due_to_freq : Bool
  trade_timestamps : List ℤ
  deriving Repr, DecidableEq

/-- Models `RiskExecutionProtocol._define_tier`. -/
def defineTier (account_equity : ℚ) : String :=
  if account_equity < 2000 then "low"
  else if account_equity < 25000 then "retail"
  else "pro"

/-- Models `RiskExecutionProtocol.__init__`. -/
def REPState.init (account_equity : ℚ) : REPState :=
  let tier := defineTier account_equity
  let mps : ℚ := if tier = "low" then 0.15 else if tier = "retail" then 0.20 else 0.25
  let mtph : ℕ := if tier = "low" then 8 else if tier = "retail" then 6 else 4
  { account_equity := account_equity
    tier := tier
    max_position_size_pct := mps
    max_trades_per_hour := mtph
    max_daily_drawdown_pct := 0.04
    max_trade_drawdown_pct := 0.015
    daily_loss_total := 0
    trade_history := []
    last_trade_time := none
    execution_frozen := false
    throttle_mode := false
    throttle_trigger_pct := 0.025
    throttle_scaling := 0.5
    locked_due_to_freq := false
    trade_timestamps := [] }

/-- Models `RiskExecutionProtocol._risk_scaling_from_confidence`. -/
def riskScalingFromConfidence (classification : String) : ℚ :=
  let tag := pyLower classification
  if strContainsSub tag "a_" || strContainsSub tag "high" then 1.0
  else if strContainsSub tag "b_" || strContainsSub tag "med" then 0.65
  else if strContainsSub tag "c_" || strContainsSub tag "low" then 0.4
  else 0.25

/-- Models `RiskExecutionProtocol.validate_trade_request` (pure: reads state only). -/
def REPState.validate_trade_request (s : REPState) (classification : String)
    (position_size_pct : ℚ) : Bool × String :=
  if s.execution_frozen then (false, "Execution frozen. Trade denied.")
  else
    let scale_factor := riskScalingFromConfidence classification
    let scaled_limit := s.max_position_size_pct * scale_factor
    if position_size_pct > scaled_limit then
      (false, "Position exceeds scaled limit for class '" ++ classification ++ "'.")
    else
      (true, "Trade permitted.")

/-- Models `RiskExecutionProtocol.record_trade`.  `now` is `datetime.utcnow()` in
seconds; `(now - t).seconds` in the Python is the seconds component of the
timedelta, i.e. `(now - t) % 86400`. Returns the updated state and the
message the Python method returns. -/
def REPState.record_trade (s : REPState) (pnl_pct position_size_pct : ℚ)
    (trade_type operation_type classification : String) (now : ℤ) :
    REPState × String :=
  if s.execution_frozen ∧ trade_type = "entry" ∧ operation_type = "primary" then
    (s, "Execution frozen. No further primary entries allowed.")
  else
    let entryPrimary := trade_type = "entry" ∧ operation_type = "primary"
    let s1 :=
      if entryPrimary then
        { s with trade_timestamps :=
            (s.trade_timestamps ++ [now]).filter (fun t => (now - t) % 86400 < 3600) }
      else s
    if entryPrimary ∧ s1.trade_timestamps.length > s1.max_trades_per_hour then
      ({ s1 with execution_frozen := true, locked_due_to_freq := true },
       "Entry frequency exceeded. New primary entries blocked.")
    else
      let scale_factor := riskScalingFromConfidence classification
      let scaled_limit := s1.max_position_size_pct * scale_factor
      if entryPrimary ∧ position_size_pct > scaled_limit then
        ({ s1 with execution_frozen := true },
         "Trade size too large for confidence class '" ++ classification ++
           "'. Execution frozen.")
      else
        let s2 := { s1 with
          trade_history := s1.trade_history ++ [pnl_pct]
          daily_loss_total := s1.daily_loss_total + (if pnl_pct < 0 then pnl_pct else 0)
          last_trade_time := some now }
        if pnl_pct < -s2.max_trade_drawdown_pct then
          ({ s2 with execution_frozen := true },
           "Trade loss exceeded limit. Execution frozen.")
        else if |s2.daily_loss_total| > s2.max_daily_drawdown_pct then
          ({ s2 with execution_frozen := true },
           "Daily loss limit exceeded. Execution frozen.")
        else if |s2.daily_loss_total| > s2.throttle_trigger_pct then
          ({ s2 with throttle_mode := true }, "Trade recorded.")
        else
          (s2, "Trade recorded.")

/-- Models `RiskExecutionProtocol.should_throttle` (pure: reads state only). -/
def REPState.should_throttle (s : REPState) : Bool :=
  s.throttle_mode && !s.execution_frozen

/-- Models `RiskExecutionProtocol.reset_daily_risk`. -/
def REPState.reset_daily_risk (s : REPState) : REPState × String :=
  ({ s with
      daily_loss_total := 0
      trade_history := []
      trade_timestamps := []
      execution_frozen := false
      throttle_mode := false
      locked_due_to_freq := false },
   "Risk counters reset. Execution re-enabled.")

/-- One call against a `RiskExecutionProtocol`: `record_trade` mutates the
state; `validate_trade_request` and `should_throttle` only read it. -/
inductive REPOp where
  | record (pnl_pct position_size_pct : ℚ) (trade_type operation_type classification : String) (now : ℤ)
  | validate (classification : String) (position_size_pct : ℚ)
  | throttleQuery
  deriving Repr, DecidableEq

/-- State transition of one call. -/
def REPState.applyOp (s : REPState) : REPOp → REPState
  | .record pnl pos tt ot cls now => (s.record_trade pnl pos tt ot cls now).1
  | .validate _ _ => s
  | .throttleQuery => s

/-- State after a sequence of calls. -/
def REPState.applyOps (s : REPState) (ops : List REPOp) : REPState :=
  ops.foldl REPState.applyOp s

/-! ## PacketSanitizer (`trade_coordinator.py`)

`sanitize` checks only that the packet is a dict and that no serialized
field value exceeds `max_length`.  The method `validate_timestamp` exists
on the class but is never invoked by `sanitize` or by
`TradeCoordinator.process_signal`: the call
`self.validate_timestamp(packet.get('timestamp', ''))` sits unreachable
after a `raise` inside `validate_timestamp` itself (where `packet` is not
even in scope), so no timestamp check ever runs on the sanitization path. -/

/-- A Python value handed to `PacketSanitizer.sanitize`: either a dict whose
values are kept in serialized (`str(v)`) form, or any non-dict object. -/
inductive PyPacket where
  | dict (fields : List (String × String))
  | nonDict (repr : String)
  deriving Repr, DecidableEq

/-- Models `PacketSanitizer.sanitize` (raising `ValueError` becomes `Except.error`). -/
def sanitize (max_length : ℕ) (packet : PyPacket) : Except String Bool :=
  match packet with
  | .nonDict _ => .error "Malformed packet: not a dictionary"
  | .dict fields =>
    if fields.any (fun kv => kv.2.length > max_length) then
      .error "Suspiciously large field in packet"
    else
      .ok true

/-! ## Split log (`TradeCoordinator.register_split` / `get_split_factor`) -/

/-- One entry of `TradeCoordinator.split_log`; dates are ISO strings compared
lexicographically, exactly as the Python compares them with `<=`. -/
structure SplitEntry where
  symbol : String
  date : String
  factor : ℚ
  deriving Repr, DecidableEq

/-- Models `TradeCoordinator.get_split_factor`: scans the log in registration order
and returns the factor of the FIRST entry matching the symbol with
`date <= date_str`, else `1.0`. -/
def get_split_factor : List SplitEntry → String → String → ℚ
  | [], _, _ => 1.0
  | e :: rest, symbol, date_str =>
    if e.symbol = symbol ∧ pyStrLe e.date date_str then e.factor
    else get_split_factor rest symbol date_str

/-- The lookup as the spec words it: among the entries for the symbol dated
at or before the query date, the factor of the one with the most recent
date (`1.0` when none). Used only to compare against `get_split_factor`. -/
def mostRecentSplitFactorSpec (log : List SplitEntry) (symbol date_str : String) : ℚ :=
  let applicable := log.filter (fun e => e.symbol = symbol ∧ pyStrLe e.date date_str)
  let best := applicable.foldl
    (fun acc e => match acc with
      | none => some e
      | some b => if pyStrLe b.date e.date then some e else some b)
    none
  match best with
  | some e => e.factor
  | none => 1.0

/-! ## SignalIsolationSystem (`signal_isolation_system.py`) -/

/-- The fields of a signal packet that the SIS methods read. -/
structure SignalPacket where
  id : String
  timestamp : String
  inputs : List (String × Bool)
  deriving Repr, DecidableEq

/-- One entry of `override_log`. -/
structure OverrideEntry where
  signal_id : String
  timestamp : String
  user : String
  justification : String
  deriving Repr, DecidableEq

/-- One entry of `execution_log` (the CCL record).  `signal_id_hash` holds
the output of the hash function passed in as a parameter, standing for
`hashlib.sha256(...).hexdigest()`. -/
structure ExecEntry where
  signal_id_hash : String
  timestamp : String
  approved : Bool
  overridden : Bool
  input_count : ℕ
  agree_count : ℕ
  deriving Repr, DecidableEq

/-- Mutable attribute set of a `SignalIsolationSystem` instance. -/
structure SISState where
  multi_factor_threshold : ℕ
  override_enabled : Bool
  override_log : List OverrideEntry
  execution_log : List ExecEntry
  deriving Repr, DecidableEq

/-- Models `SignalIsolationSystem.__init__`. -/
def SISState.init : SISState :=
  { multi_factor_threshold := 3
    override_enabled := true
    override_log := []
    execution_log := [] }

/-- Models `sum(1 for val in inputs.values() if val)`. -/
def agreeCount (inputs : List (String × Bool)) : ℕ :=
  (inputs.filter (·.2)).length

/-- Models `SignalIsolationSystem.log_execution`; `hash` models sha256-hexdigest. -/
def SISState.log_execution (s : SISState) (hash : String → String)
    (p : SignalPacket) (approved overridden : Bool) : SISState :=
  { s with execution_log := s.execution_log ++
      [({ signal_id_hash := hash p.id
          timestamp := p.timestamp
          approved := approved
          overridden := overridden
          input_count := p.inputs.length
          agree_count := agreeCount p.inputs } : ExecEntry)] }

/-- Models `SignalIsolationSystem.trigger_override`: returns the Python return
value and the state after the call. -/
def SISState.trigger_override (s : SISState) (hash : String → String)
    (p : SignalPacket) (user_id justification : String) : Bool × SISState :=
  if !s.override_enabled then (false, s)
  else
    let s1 := { s with override_log := s.override_log ++
        [({ signal_id := p.id
            timestamp := p.timestamp
            user := user_id
            justification := justification } : OverrideEntry)] }
    (true, s1.log_execution hash p true true)

/-- Models `SignalIsolationSystem.lockdown`. -/
def SISState.lockdown (s : SISState) : SISState × String :=
  ({ s with override_enabled := false },
   "Override system disabled. All discretionary approvals blocked.")

/-! ## VIX whipsaw filter (`helpers/vix_whipsaw_filter.py`)

The `pd.Series` of daily closes is an ordered list of (date, value) pairs
with dates in days; `timedelta(days=1)` is `+1`, `timedelta(hours=72)` is
`+3` days, `timedelta(hours=144)` is `+6` days. -/

/-- Daily VIX closes in index order. -/
abbrev VixSeries := List (ℤ × ℚ)

/-- Models `vix_data.index`. -/
def seriesDates (v : VixSeries) : List ℤ := v.map (·.1)

/-- Models `vix_data.loc[d]` (first entry at the date; `0` if absent, which every
use below guards against). -/
def seriesLoc (v : VixSeries) (d : ℤ) : ℚ :=
  ((v.find? (fun p => p.1 = d)).map (·.2)).getD 0

/-- Models `vix_data.index.get_loc(d)`: position of the date in the index
(position of its first occurrence). -/
def seriesGetLoc : VixSeries → ℤ → ℕ
  | [], _ => 0
  | p :: rest, d => if p.1 = d then 0 else seriesGetLoc rest d + 1

/-- Minimum value over the label slice `vix_data[a:b]` (both ends included),
with `dflt` when the window is empty — models
`recent_window.min() if not recent_window.empty else current_vix`. -/
def windowMin (v : VixSeries) (a b : ℤ) (dflt : ℚ) : ℚ :=
  match ((v.filter (fun p => a ≤ p.1 ∧ p.1 ≤ b)).map (·.2)).min? with
  | some m => m
  | none => dflt

/-- The `state` dict of `vix_whipsaw_filter`.  Absent keys are `none`
(or `false`/`0` where the Python reads them with a default). -/
structure VixFilterState where
  cooldown_until : Option ℤ := none
  observation_day : Option ℤ := none
  red_light_until : Option ℤ := none
  red_count : ℕ := 0
  volatility_floor : Option ℚ := none
  observe_red_on : Option ℤ := none
  red_watch : Bool := false
  last_trigger_day : Option ℤ := none
  deriving Repr, DecidableEq

/-- Models `vix_whipsaw_filter(current_date, vix_data, state)`: returns the regime
decision string and the updated state. -/
def vix_whipsaw_filter (current_date : ℤ) (vix_data : VixSeries)
    (state : VixFilterState) : String × VixFilterState :=
  if ¬ (seriesDates vix_data).contains current_date then ("normal", state)
  else
    let redActive := match state.red_light_until with
      | some rlu => decide (current_date ≤ rlu)
      | none => false
    if redActive then
      let current_vix := seriesLoc vix_data current_date
      let three_week_low := windowMin vix_data (current_date - 21) current_date current_vix
      let volatility_floor := min three_week_low 38
      if current_vix < volatility_floor then
        ("normal", { state with red_light_until := none, volatility_floor := none })
      else
        ("red_light_active", { state with volatility_floor := some volatility_floor })
    else
      let cooldownActive := match state.cooldown_until with
        | some cu => decide (current_date ≤ cu)
        | none => false
      if cooldownActive then ("cooldown_active", state)
      else
        let today_vix := seriesLoc vix_data current_date
        let idx := seriesGetLoc vix_data current_date
        if idx = 0 then ("normal", state)
        else
          let prev_date := (seriesDates vix_data).getD (idx - 1) 0
          let prev_vix := seriesLoc vix_data prev_date
          let drop_pct := (prev_vix - today_vix) / prev_vix
          if prev_vix > 30 ∧ drop_pct > 0.08 then
            ("cooling_triggered",
             { state with observation_day := some (current_date + 1)
                          last_trigger_day := some current_date })
          else if drop_pct > 0.07 then
            ("red_watch_triggered",
             { state with observe_red_on := some (current_date + 1)
                          red_watch := true })
          else if state.observation_day = some current_date then
            let rebound_pct := (today_vix - prev_vix) / prev_vix
            if rebound_pct ≥ 0.045 then
              ("revert_to_strict",
               { state with cooldown_until := some (current_date + 3)
                            observation_day := none })
            else
              ("normal", { state with observation_day := none })
          else if state.observe_red_on = some current_date ∧ state.red_watch then
            let rebound_pct := (today_vix - prev_vix) / prev_vix
            if rebound_pct ≥ 0.04 then
              let rc := state.red_count + 1
              let cooldown_hours_days : ℤ := if rc = 1 then 3 else 6
              ("red_light_active",
               { state with red_count := rc
                            red_light_until := some (current_date + cooldown_hours_days)
                            red_watch := false
                            observe_red_on := none })
            else
              ("normal", { state with red_watch := false, observe_red_on := none })
          else
            ("normal", state)

/-! ## Allocation governor, rule 1 (`enforcer/enforce_allocation_rules_fullSet.py`)

`bin_weights` is the dict `{bin_name: float}` as an association list. -/

/-- Models `sum(bin_weights.values())`. -/
def sumWeights (bin_weights : List (String × ℚ)) : ℚ :=
  (bin_weights.map (·.2)).sum

/-- Models `enforce_liquidity_reserve_only(bin_weights, constraints)`; the single
constraint it reads, `constraints['liquidity_reserve']`, is passed directly. -/
def enforce_liquidity_reserve_only (bin_weights : List (String × ℚ))
    (liquidity_reserve : ℚ) : List (String × ℚ) :=
  let max_total_allowed := 1 - liquidity_reserve
  let current_total := sumWeights bin_weights
  if current_total > max_total_allowed then
    let scaling_factor := max_total_allowed / current_total
    bin_weights.map (fun p => (p.1, p.2 * scaling_factor))
  else
    bin_weights

/-! ## Derived quantities used to state the VIX filter claims -/

/-- The local `prev_vix` of `vix_whipsaw_filter` (value at the index entry
preceding `d`). -/
def vixPrevVix (v : VixSeries) (d : ℤ) : ℚ :=
  seriesLoc v ((seriesDates v).getD (seriesGetLoc v d - 1) 0)

/-- The local `drop_pct` of `vix_whipsaw_filter`. -/
def vixDropPct (v : VixSeries) (d : ℤ) : ℚ :=
  (vixPrevVix v d - seriesLoc v d) / vixPrevVix v d

/-! # Theorems settling the claims -/

/-! ## Helper lemmas -/

/-- Lemma: `record_trade` never clears the freeze flag: every branch either leaves
`execution_frozen` alone or sets it to `true`. -/
theorem record_trade_keeps_frozen (s : REPState) (pnl pos : ℚ)
    (tt ot cls : String) (now : ℤ) (h : s.execution_frozen = true) :
    ((s.record_trade pnl pos tt ot cls now).1).execution_frozen = true := by
  unfold REPState.record_trade
  by_cases hep : tt = "entry" ∧ ot = "primary"
  · simp [hep, h]
  · simp only [hep, h, if_pos, if_neg, and_true, and_false, false_and, true_and,
      if_false, ite_false, ite_true, not_false_eq_true, false_iff, decide_True]
    simp [hep]
    split_ifs <;> simp [h]

/-- No single call (`record_trade`, `validate_trade_request`,
`should_throttle`) clears the freeze flag. -/
theorem applyOp_keeps_frozen (s : REPState) (op : REPOp)
    (h : s.execution_frozen = true) : (s.applyOp op).execution_frozen = true := by
  cases op with
  | record pnl pos tt ot cls now => exact record_trade_keeps_frozen s pnl pos tt ot cls now h
  | validate cls pos => exact h
  | throttleQuery => exact h

/-- No sequence of calls clears the freeze flag. -/
theorem applyOps_keeps_frozen (ops : List REPOp) (s : REPState)
    (h : s.execution_frozen = true) : (s.applyOps ops).execution_frozen = true := by
  induction ops generalizing s with
  | nil => exact h
  | cons op rest ih =>
    exact ih _ (applyOp_keeps_frozen s op h)

/-! ## C2 -/

/-- C2: in every state with `execution_frozen = true`, `record_trade` with
`trade_type="entry"`, `operation_type="primary"` returns the frozen-rejection
message and the state unchanged — in particular `trade_history`,
`trade_timestamps` and `daily_loss_total` are untouched. -/
theorem record_trade_frozen_entry_rejected (s : REPState)
    (h : s.execution_frozen = true) (pnl pos : ℚ) (cls : String) (now : ℤ) :
    s.record_trade pnl pos "entry" "primary" cls now =
      (s, "Execution frozen. No further primary entries allowed.") := by
  unfold REPState.record_trade
  simp [h]

/-- Witness for C2 at a concrete frozen state. -/
theorem record_trade_frozen_entry_rejected_witness :
    ({ REPState.init 10000 with execution_frozen := true } : REPState).record_trade
        (-0.01) 0.02 "entry" "primary" "high" 0 =
      ({ REPState.init 10000 with execution_frozen := true },
       "Execution frozen. No further primary entries allowed.") :=
  record_trade_frozen_entry_rejected _ rfl (-0.01) 0.02 "high" 0

/-! ## C9 -/

/-- C9: `should_throttle` is true iff `throttle_mode` is set and execution is
not frozen; hence a freeze masks the throttle signal. -/
theorem should_throttle_iff (s : REPState) :
    s.should_throttle = (s.throttle_mode && !s.execution_frozen) ∧
    (s.execution_frozen = true → s.should_throttle = false) := by
  refine ⟨rfl, fun h => ?_⟩
  simp [REPState.should_throttle, h]

/-- Witness for C9: a frozen state that crossed the throttle trigger still
reports `should_throttle = false`. -/
theorem should_throttle_iff_witness :
    ({ REPState.init 10000 with execution_frozen := true, throttle_mode := true }
        : REPState).should_throttle = false :=
  (should_throttle_iff _).2 rfl

/-! ## C6 -/

/-- C6: from any non-frozen state whose per-trade drawdown limit is the
constructor value `0.015`, one `record_trade` with `pnl_pct = -0.02` leaves
`execution_frozen = true`; the flag stays true under every further sequence
of `record_trade` / `validate_trade_request` / `should_throttle` calls; and
`reset_daily_risk` clears it. -/
theorem record_trade_big_loss_freezes (s : REPState)
    (hfree : s.execution_frozen = false) (hlim : s.max_trade_drawdown_pct = 0.015)
    (pos : ℚ) (tt ot cls : String) (now : ℤ) (ops : List REPOp) :
    ((s.record_trade (-0.02) pos tt ot cls now).1).execution_frozen = true ∧
    ((((s.record_trade (-0.02) pos tt ot cls now).1).applyOps ops).execution_frozen = true) ∧
    (((((s.record_trade (-0.02) pos tt ot cls now).1).applyOps ops).reset_daily_risk).1.execution_frozen
      = false) := by
  have h1 : ((s.record_trade (-0.02) pos tt ot cls now).1).execution_frozen = true := by
    have hlt : s.max_trade_drawdown_pct < 2e-2 := by rw [hlim]; norm_num
    have h0 : (0 : ℚ) < 2e-2 := by norm_num
    unfold REPState.record_trade
    by_cases hep : tt = "entry" ∧ ot = "primary"
    · simp [hfree, hep, hlt, h0]
      split_ifs <;> simp
    · simp [hfree, hep, hlt, h0]
  refine ⟨h1, applyOps_keeps_frozen ops _ h1, rfl⟩

/-- Witness for C6 from a freshly constructed retail-tier protocol, with two
further calls after the freezing trade. -/
theorem record_trade_big_loss_freezes_witness :
    (((REPState.init 10000).record_trade (-0.02) 0.01 "entry" "primary" "high" 0).1).execution_frozen
      = true ∧
    (((((REPState.init 10000).record_trade (-0.02) 0.01 "entry" "primary" "high" 0).1).applyOps
        [.record 0.01 0.01 "exit" "secondary" "" 60, .throttleQuery]).execution_frozen = true) ∧
    ((((((REPState.init 10000).record_trade (-0.02) 0.01 "entry" "primary" "high" 0).1).applyOps
        [.record 0.01 0.01 "exit" "secondary" "" 60, .throttleQuery]).reset_daily_risk).1.execution_frozen
      = false) :=
  record_trade_big_loss_freezes (REPState.init 10000) rfl rfl 0.01 "entry" "primary" "high" 0
    [.record 0.01 0.01 "exit" "secondary" "" 60, .throttleQuery]

/-! ## C4 -/

/-- Two small losing exits from a fresh retail-tier protocol: afterwards
`daily_loss_total = -0.02`, nothing frozen, nothing throttled. -/
def c4_before : REPState :=
  ((((REPState.init 10000).record_trade (-0.01) 0.01 "exit" "adjust" "" 0).1).record_trade
    (-0.01) 0.01 "exit" "adjust" "" 0).1

/-- C4 as stated is false: a third trade with `pnl_pct = -0.02` pushes the
cumulative daily loss to `-0.04` (beyond the `0.025` throttle trigger) but
also trips the per-trade freeze, whose early `return` skips the throttle
check, so `throttle_mode` stays `false`. -/
theorem record_trade_throttle_counterexample :
    ((c4_before.record_trade (-0.02) 0.01 "exit" "adjust" "" 0).1.execution_frozen = true) ∧
    (|(c4_before.record_trade (-0.02) 0.01 "exit" "adjust" "" 0).1.daily_loss_total| >
      (c4_before.record_trade (-0.02) 0.01 "exit" "adjust" "" 0).1.throttle_trigger_pct) ∧
    ((c4_before.record_trade (-0.02) 0.01 "exit" "adjust" "" 0).1.throttle_mode = false) := by
  norm_num +decide [c4_before, REPState.record_trade, REPState.init, defineTier, abs_of_nonpos]

/-- C4 amended: `throttle_mode` is set by a `record_trade` call (when the
cumulative daily loss afterwards exceeds the 2.5% trigger) only if the call
completes without an early return, i.e. returns "Trade recorded."; a call
that trips a freeze from a non-frozen state returns before the throttle
check and leaves `throttle_mode` unchanged. -/
theorem record_trade_throttle_amended (s : REPState) (pnl pos : ℚ)
    (tt ot cls : String) (now : ℤ) :
    ((s.record_trade pnl pos tt ot cls now).1.execution_frozen = false →
      |(s.record_trade pnl pos tt ot cls now).1.daily_loss_total| > s.throttle_trigger_pct →
      (s.record_trade pnl pos tt ot cls now).1.throttle_mode = true) ∧
    (s.execution_frozen = false →
      (s.record_trade pnl pos tt ot cls now).1.execution_frozen = true →
      (s.record_trade pnl pos tt ot cls now).1.throttle_mode = s.throttle_mode) := by
  constructor
  · intro hnf hgt
    unfold REPState.record_trade at hnf hgt ⊢
    by_cases hep : tt = "entry" ∧ ot = "primary" <;>
      by_cases hfz : s.execution_frozen <;>
        simp [hep, hfz] at hnf hgt ⊢ <;>
          split_ifs at hnf hgt ⊢ <;> first | (simp_all; done) | rfl | (exfalso; linarith)
  · intro hfree hfz
    unfold REPState.record_trade at hfz ⊢
    by_cases hep : tt = "entry" ∧ ot = "primary" <;>
      simp [hep, hfree] at hfz ⊢ <;>
        split_ifs at hfz ⊢ <;> simp_all

set_option maxHeartbeats 1000000 in
/-- Witness for C4's amended claim: a completed trade crossing the trigger
does set `throttle_mode`. -/
theorem record_trade_throttle_amended_witness :
    (({ REPState.init 10000 with daily_loss_total := -0.02 } : REPState).record_trade
        (-0.01) 0.01 "exit" "adjust" "" 0).1.throttle_mode = true :=
  (record_trade_throttle_amended { REPState.init 10000 with daily_loss_total := -0.02 }
      (-0.01) 0.01 "exit" "adjust" "" 0).1
    (by norm_num +decide [REPState.record_trade, REPState.init, defineTier, abs_of_nonpos])
    (by norm_num +decide [REPState.record_trade, REPState.init, defineTier, abs_of_nonpos])

/-! ## C5 -/

/-- C5: with execution not frozen, `validate_trade_request` permits a request
iff `position_size_pct` is at most the tier position cap times the
confidence multiplier; concretely, at `account_equity = 10000` (retail tier,
20% cap) with a tag containing "high" (multiplier 1), `0.25` is denied and
`0.15` permitted. -/
theorem validate_trade_request_scaled_limit (s : REPState)
    (h : s.execution_frozen = false) (cls : String) (pos : ℚ) :
    ((s.validate_trade_request cls pos).1 = true ↔
      pos ≤ s.max_position_size_pct * riskScalingFromConfidence cls) ∧
    (REPState.init 10000).tier = "retail" ∧
    (REPState.init 10000).max_position_size_pct = 0.20 ∧
    riskScalingFromConfidence "high_confidence" = 1 ∧
    ((REPState.init 10000).validate_trade_request "high_confidence" 0.25).1 = false ∧
    ((REPState.init 10000).validate_trade_request "high_confidence" 0.15).1 = true := by
  refine ⟨?_, ?_, ?_, ?_, ?_, ?_⟩
  · unfold REPState.validate_trade_request
    simp [h]
    constructor
    · intro hp
      split_ifs at hp
      simp_all
    · intro hle
      rw [if_neg (by simpa using not_lt.mpr hle)]
  · norm_num +decide [REPState.init, defineTier]
  · norm_num +decide [REPState.init, defineTier]
  · norm_num +decide [riskScalingFromConfidence]
  · norm_num +decide [REPState.validate_trade_request, REPState.init, defineTier,
      riskScalingFromConfidence]
  · norm_num +decide [REPState.validate_trade_request, REPState.init, defineTier,
      riskScalingFromConfidence]

/-- Witness for C5 at the concrete retail protocol and permitted size. -/
theorem validate_trade_request_scaled_limit_witness :
    (((REPState.init 10000).validate_trade_request "high_confidence" 0.15).1 = true ↔
      (0.15 : ℚ) ≤ (REPState.init 10000).max_position_size_pct *
        riskScalingFromConfidence "high_confidence") ∧
    (REPState.init 10000).tier = "retail" ∧
    (REPState.init 10000).max_position_size_pct = 0.20 ∧
    riskScalingFromConfidence "high_confidence" = 1 ∧
    ((REPState.init 10000).validate_trade_request "high_confidence" 0.25).1 = false ∧
    ((REPState.init 10000).validate_trade_request "high_confidence" 0.15).1 = true :=
  validate_trade_request_scaled_limit (REPState.init 10000) rfl "high_confidence" 0.15

/-! ## C7 -/

/-- Scaling every weight by a common factor scales the total. -/
theorem sumWeights_map_scale (w : List (String × ℚ)) (c : ℚ) :
    sumWeights (w.map fun p => (p.1, p.2 * c)) = sumWeights w * c := by
  unfold sumWeights
  rw [List.map_map]
  exact List.sum_map_mul_right w (fun p => p.2) c

/-- C7: when the bin total exceeds `1 - liquidity_reserve`,
`enforce_liquidity_reserve_only` multiplies every bin weight by the single
factor `(1 - reserve)/total` (preserving proportions), the rescaled total is
exactly `1 - reserve`, and nothing is rejected (the function always returns
weights); a total within the limit is returned unchanged.  The last conjunct
is the spec's concrete case: bins summing to `0.95` with reserve `0.10` are
each scaled by `0.90/0.95`. -/
theorem enforce_liquidity_reserve_scales (w : List (String × ℚ)) (r : ℚ) :
    (sumWeights w ≤ 1 - r → enforce_liquidity_reserve_only w r = w) ∧
    (sumWeights w > 1 - r →
      enforce_liquidity_reserve_only w r =
        w.map (fun p => (p.1, p.2 * ((1 - r) / sumWeights w)))) ∧
    (sumWeights w > 1 - r → 0 ≤ 1 - r →
      sumWeights (enforce_liquidity_reserve_only w r) = 1 - r) ∧
    enforce_liquidity_reserve_only [("a", 0.5), ("b", 0.45)] 0.10 =
      [("a", 0.5 * (0.9 / 0.95)), ("b", 0.45 * (0.9 / 0.95))] := by
  refine ⟨?_, ?_, ?_, ?_⟩
  · intro hle
    unfold enforce_liquidity_reserve_only
    rw [if_neg (not_lt.mpr hle)]
  · intro hgt
    unfold enforce_liquidity_reserve_only
    rw [if_pos hgt]
  · intro hgt hr
    have hT : sumWeights w ≠ 0 := ne_of_gt (lt_of_le_of_lt hr hgt)
    unfold enforce_liquidity_reserve_only
    rw [if_pos hgt, sumWeights_map_scale]
    field_simp
  · norm_num [enforce_liquidity_reserve_only, sumWeights]

/-- Witness for C7 at the spec's concrete numbers (total 0.95, reserve 0.10):
all weights scaled by the common factor and the new total is exactly 0.90. -/
theorem enforce_liquidity_reserve_scales_witness :
    (enforce_liquidity_reserve_only [("a", 0.5), ("b", 0.45)] 0.10 =
      [("a", 0.5 * ((1 - 0.10) / sumWeights [("a", 0.5), ("b", (0.45 : ℚ))])),
       ("b", 0.45 * ((1 - 0.10) / sumWeights [("a", 0.5), ("b", (0.45 : ℚ))]))]) ∧
    sumWeights (enforce_liquidity_reserve_only [("a", 0.5), ("b", 0.45)] 0.10) = 1 - 0.10 :=
  ⟨(enforce_liquidity_reserve_scales [("a", 0.5), ("b", 0.45)] 0.10).2.1
      (by norm_num [sumWeights]),
   (enforce_liquidity_reserve_scales [("a", 0.5), ("b", 0.45)] 0.10).2.2.1
      (by norm_num [sumWeights]) (by norm_num)⟩

/-! ## C8 -/

/-- Two splits of the same symbol registered in chronological order. -/
def c8log : List SplitEntry :=
  [{ symbol := "AAPL", date := "2020-08-31", factor := 4 },
   { symbol := "AAPL", date := "2022-06-06", factor := 3 }]

/-- C8 as stated is false: `get_split_factor` scans in registration order and
returns the FIRST applicable entry (the 2020 split, factor 4), while the most
recent split at or before the query date is the 2022 one (factor 3). -/
theorem get_split_factor_counterexample :
    get_split_factor c8log "AAPL" "2023-01-01" = 4 ∧
    mostRecentSplitFactorSpec c8log "AAPL" "2023-01-01" = 3 ∧
    get_split_factor c8log "AAPL" "2023-01-01" ≠
      mostRecentSplitFactorSpec c8log "AAPL" "2023-01-01" := by
  refine ⟨?_, ?_, ?_⟩ <;>
    norm_num +decide [c8log, get_split_factor, mostRecentSplitFactorSpec]

/-- C8 amended: for every split log, `get_split_factor` returns the factor of
the first entry in REGISTRATION order whose symbol matches and whose date is
at or before the query date, and `1.0` when no entry applies (`List.find?`
on the log). -/
theorem get_split_factor_amended (log : List SplitEntry) (symbol date_str : String) :
    get_split_factor log symbol date_str =
      (match log.find? (fun e => decide (e.symbol = symbol) && pyStrLe e.date date_str) with
        | some e => e.factor
        | none => 1.0) := by
  induction log with
  | nil => rfl
  | cons e rest ih =>
    by_cases h1 : e.symbol = symbol
    · by_cases h2 : pyStrLe e.date date_str = true
      · simp [get_split_factor, List.find?, h1, h2]
      · simp [get_split_factor, List.find?, h1, h2, ih]
    · simp [get_split_factor, List.find?, h1, ih]

/-! ## C10 -/

/-- C10: when `override_enabled` is false, `trigger_override` returns `False`
and the state — in particular `override_log` and `execution_log` — is
unchanged; the second conjunct specialises this to any post-`lockdown`
state. -/
theorem trigger_override_disabled (s : SISState) (hash : String → String)
    (p : SignalPacket) (u j : String) (h : s.override_enabled = false) :
    s.trigger_override hash p u j = (false, s) ∧
    (s.lockdown).1.trigger_override hash p u j = (false, (s.lockdown).1) := by
  constructor
  · simp [SISState.trigger_override, h]
  · simp [SISState.trigger_override, SISState.lockdown]

/-- Witness for C10: a locked-down fresh SIS refuses an override with no
state change. -/
theorem trigger_override_disabled_witness :
    (SISState.init.lockdown).1.trigger_override id
        { id := "sig-7", timestamp := "2025-04-09T14:33:00Z", inputs := [] }
        "operator" "manual go" =
      (false, (SISState.init.lockdown).1) :=
  (trigger_override_disabled (SISState.init.lockdown).1 id
      { id := "sig-7", timestamp := "2025-04-09T14:33:00Z", inputs := [] }
      "operator" "manual go" rfl).1

/-! ## C1 -/

/-- C1 (documenting the code bug): `PacketSanitizer.sanitize` — the only
sanitization the `process_signal` pipeline performs — accepts every
structured packet whose serialized fields are within the length bound,
regardless of the timestamp value: a packet carrying a far-future (or stale,
or malformed) timestamp is NOT rejected, because `validate_timestamp` is
never invoked on the sanitization path. -/
theorem sanitize_ignores_timestamp :
    (∀ ts : String, ts.length ≤ 4096 →
      sanitize 4096 (.dict [("id", "sig-001"), ("timestamp", ts), ("inputs", "ser")]) =
        .ok true) ∧
    sanitize 4096 (.dict [("id", "sig-001"),
        ("timestamp", "2999-01-01T00:00:00Z"), ("inputs", "ser")]) = .ok true := by
  constructor
  · intro ts hlen
    simp [sanitize, List.any, Nat.not_lt.mpr hlen]
    exact ⟨by decide, by decide⟩
  · simp +decide [sanitize]

/-- Witness for C1's theorem at the concrete future-dated packet. -/
theorem sanitize_ignores_timestamp_witness :
    sanitize 4096 (PyPacket.dict [("id", "sig-001"),
        ("timestamp", "2999-01-01T00:00:00Z"), ("inputs", "ser")]) = .ok true :=
  sanitize_ignores_timestamp.1 "2999-01-01T00:00:00Z" (by decide)

/-! ## C3 -/

/-- C3 as stated is false: on a day with a 12.5% VIX drop from a previous
close of 40 (> 30), with no red-light and no cooldown active, the filter
returns `cooling_triggered` (the yellow trigger is checked first and wins
when `prev > 30` and the drop exceeds 8%), not `red_watch_triggered`, and no
red observation is armed. -/
theorem vix_red_watch_counterexample :
    (vix_whipsaw_filter 1 [(0, 40), (1, 35)] {}).1 = "cooling_triggered" ∧
    (vix_whipsaw_filter 1 [(0, 40), (1, 35)] {}).2.observe_red_on = none ∧
    (vix_whipsaw_filter 1 [(0, 40), (1, 35)] {}).2.red_watch = false ∧
    vixDropPct [(0, 40), (1, 35)] 1 > 0.07 ∧
    (({} : VixFilterState).red_light_until = none ∧
      ({} : VixFilterState).cooldown_until = none) := by
  refine ⟨?_, ?_, ?_, ?_, rfl, rfl⟩ <;>
    norm_num +decide [vix_whipsaw_filter, vixDropPct, vixPrevVix, seriesDates,
      seriesLoc, seriesGetLoc, windowMin, List.find?, List.getD]

/-- C3 amended: with no red-light or cooldown active and a previous day in
the series, a day-over-day drop exceeding 7% returns `red_watch_triggered`
and arms the next-day red observation — PROVIDED the yellow trigger
(previous close above 30 and drop above 8%) does not fire first; when both
conditions hold the yellow branch wins and returns `cooling_triggered`. -/
theorem vix_red_watch_amended (d : ℤ) (v : VixSeries) (s : VixFilterState)
    (hmem : (seriesDates v).contains d = true)
    (hred : ∀ rlu, s.red_light_until = some rlu → rlu < d)
    (hcool : ∀ cu, s.cooldown_until = some cu → cu < d)
    (hidx : seriesGetLoc v d ≠ 0)
    (hdrop : vixDropPct v d > 0.07)
    (hy : ¬ (vixPrevVix v d > 30 ∧ vixDropPct v d > 0.08)) :
    vix_whipsaw_filter d v s =
      ("red_watch_triggered",
        { s with observe_red_on := some (d + 1), red_watch := true }) := by
  have hra : (match s.red_light_until with
      | some rlu => decide (d ≤ rlu)
      | none => false) = false := by
    cases hrl : s.red_light_until with
    | none => rfl
    | some rlu => simpa using not_le.mpr (hred rlu hrl)
  have hca : (match s.cooldown_until with
      | some cu => decide (d ≤ cu)
      | none => false) = false := by
    cases hcu : s.cooldown_until with
    | none => rfl
    | some cu => simpa using not_le.mpr (hcool cu hcu)
  have hmem' : d ∈ seriesDates v := by simpa using hmem
  unfold vixDropPct vixPrevVix at hdrop hy
  unfold vix_whipsaw_filter
  rw [if_neg (by simp [hmem'])]
  simp only [hra, hca, Bool.false_eq_true, if_false]
  rw [if_neg hidx, if_neg hy, if_pos hdrop]

/-- Witness for C3's amended claim: a 10% drop from a previous close of 20
(not above 30) arms the red watch for the next day. -/
theorem vix_red_watch_amended_witness :
    vix_whipsaw_filter 1 [(0, 20), (1, 18)] {} =
      ("red_watch_triggered",
        { ({} : VixFilterState) with observe_red_on := some 2, red_watch := true }) :=
  vix_red_watch_amended 1 [(0, 20), (1, 18)] {} (by decide)
    (fun rlu h => by cases h) (fun cu h => by cases h) (by decide)
    (by norm_num [vixDropPct, vixPrevVix, seriesLoc, seriesDates, seriesGetLoc,
      List.find?, List.getD])
    (by norm_num [vixDropPct, vixPrevVix, seriesLoc, seriesDates, seriesGetLoc,
      List.find?, List.getD])

end TradeModel
